import Mathlib

/-!
Shallow embedding of `packages/messaging/src/helpers/registerDefaultSw.ts`.

The source file has two functions:

* `waitForRegistrationActive(registration)` builds a promise whose executor
  starts a rejection timer (`setTimeout`), then synchronously either resolves
  (registration already active), attaches an `onstatechange` observer to the
  incoming worker (`registration.installing || registration.waiting`), or
  rejects (no incoming worker).  Afterwards two asynchronous signal sources may
  fire: the timer and state-change events on the observed worker.  We model
  the promise cell, the timer and the observer as an explicit `WaitState` and
  the asynchronous callbacks as a step function over events.

* `registerDefaultSw(messaging)` awaits the host registration request, stores
  the handle on the messaging context, fires a discarded `update()` request
  and awaits activation, wrapping every failure into the single public error
  code `FAILED_DEFAULT_REGISTRATION`.  We model the asynchronous host calls as
  explicit result inputs and record the performed operations in a trace.
-/

/-- A service worker handle: an identity (so distinct `installing` and
`waiting` workers can be told apart) and its lifecycle `state` string. -/
structure ServiceWorker where
  id : Nat
  state : String
deriving DecidableEq

/-- A `ServiceWorkerRegistration` as read by the source: the three worker
slots `active`, `installing` and `waiting`, each possibly null. -/
structure ServiceWorkerRegistration where
  active : Option ServiceWorker
  installing : Option ServiceWorker
  waiting : Option ServiceWorker
deriving DecidableEq

/-- Settlement of the promise built by `waitForRegistrationActive`: resolved
with no value, or rejected with an `Error` whose message is recorded. -/
inductive Settlement where
  | resolved : Settlement
  | rejected : String → Settlement
deriving DecidableEq

/-- The run-time state of one `waitForRegistrationActive` invocation:
`timeoutMs` is the configured timeout constant, `timerActive` whether the
`setTimeout` timer is still pending (neither fired nor cleared), `observer`
the id of the worker whose `onstatechange` handler is currently set (if any),
and `settled` the promise settlement, `none` while pending. -/
structure WaitState where
  timeoutMs : Nat
  timerActive : Bool
  observer : Option Nat
  settled : Option Settlement
deriving DecidableEq

/-- The message of the timeout rejection:
`Service worker not registered after ${DEFAULT_REGISTRATION_TIMEOUT} ms`.
The embedding is parametric in the configured duration. -/
def timeoutMessage (timeoutMs : Nat) : String :=
  "Service worker not registered after " ++ toString timeoutMs ++ " ms"

/-- The message of the immediate rejection when no incoming worker exists. -/
def noIncomingMessage : String :=
  "No incoming service worker found."

/-- JS promise settlement semantics: `resolve`/`reject` on an already settled
promise is a no-op, otherwise the settlement is recorded. -/
def trySettle (s : WaitState) (out : Settlement) : WaitState :=
  match s.settled with
  | some _ => s
  | none => { s with settled := some out }

/-- The synchronous executor body of `waitForRegistrationActive` (source lines
66 to 92): the timer is started; `incomingSw` is
`registration.installing || registration.waiting`; if `registration.active`
is set the timer is cleared and the promise resolves; otherwise if an
incoming worker exists its `onstatechange` observer is attached; otherwise
the timer is cleared and the promise rejects with the no-incoming message. -/
def waitForRegistrationActive (registration : ServiceWorkerRegistration)
    (timeoutMs : Nat) : WaitState :=
  match registration.active with
  | some _ =>
      { timeoutMs := timeoutMs, timerActive := false,
        observer := none, settled := some Settlement.resolved }
  | none =>
      match registration.installing.orElse fun _ => registration.waiting with
      | some sw =>
          { timeoutMs := timeoutMs, timerActive := true,
            observer := some sw.id, settled := none }
      | none =>
          { timeoutMs := timeoutMs, timerActive := false,
            observer := none,
            settled := some (Settlement.rejected noIncomingMessage) }

/-- An asynchronous event delivered after the executor returned: the timer
firing, or a `statechange` event on the worker `targetId` whose `state`
attribute reads `targetState` at delivery time. -/
inductive WaitEvent where
  | timerFire : WaitEvent
  | stateChange : Nat → String → WaitEvent
deriving DecidableEq

/-- Delivery of one asynchronous event.  The timer callback (source lines 67
to 75) rejects with the timeout message; it runs only if the timer is still
pending.  A `statechange` event runs the handler only if `onstatechange` is
currently set on that worker; the handler (source lines 81 to 87) checks
`ev.target.state === "activated"` and, if so, detaches the observer, clears
the timer and resolves — and does nothing otherwise. -/
def waitStep (s : WaitState) : WaitEvent → WaitState
  | WaitEvent.timerFire =>
      if s.timerActive then
        trySettle { s with timerActive := false }
          (Settlement.rejected (timeoutMessage s.timeoutMs))
      else s
  | WaitEvent.stateChange targetId targetState =>
      if s.observer = some targetId then
        if targetState = "activated" then
          trySettle { s with observer := none, timerActive := false }
            Settlement.resolved
        else s
      else s

/-- A full run of `waitForRegistrationActive`: the executor followed by a
sequence of delivered asynchronous events. -/
def waitRun (registration : ServiceWorkerRegistration) (timeoutMs : Nat)
    (events : List WaitEvent) : WaitState :=
  events.foldl waitStep (waitForRegistrationActive registration timeoutMs)

/-- Modelled from the spec: `ErrorCode` from `../util/errors` is not under
`src/`; the spec names `FailedDefaultRegistration` as the single error kind
surfaced by this component, while the surrounding messaging SDK (out of
scope) has further error kinds, abstracted here as `OTHER_CODE`. -/
inductive ErrorCode where
  | FAILED_DEFAULT_REGISTRATION : ErrorCode
  | OTHER_CODE : ErrorCode
deriving DecidableEq

/-- Modelled from the spec: the error created by
`ERROR_FACTORY.create(ErrorCode.FAILED_DEFAULT_REGISTRATION,
{browserErrorMessage})` — a public error carrying its code and the underlying
error message attached as context (`../util/errors` is not under `src/`). -/
structure FirebaseError where
  code : ErrorCode
  browserErrorMessage : String
deriving DecidableEq

/-- Modelled from the spec: the messaging context (`MessagingService`, not
under `src/`) is a mutable holder with the `swRegistration` field written by
this component; all its remaining fields are abstracted as `rest`. -/
structure MessagingService (α : Type) where
  swRegistration : Option ServiceWorkerRegistration
  rest : α
deriving DecidableEq

/-- One operation performed by `registerDefaultSw`, in program order:
the host registration request, the write of the returned handle to
`messaging.swRegistration`, the discarded `update()` request, and the await
of `waitForRegistrationActive`. -/
inductive RegStep where
  | hostRegister : RegStep
  | writeSwRegistration : ServiceWorkerRegistration → RegStep
  | updateRequest : RegStep
  | activationWait : RegStep
deriving DecidableEq, BEq

/-- Whether a trace entry is the host registration request. -/
def isHostRegister : RegStep → Bool
  | RegStep.hostRegister => true
  | _ => false

/-- Outcome of awaiting the promise of `waitForRegistrationActive` after the
given events: `none` while the promise is still pending, otherwise success or
the rejection message. -/
def waitOutcome (registration : ServiceWorkerRegistration) (timeoutMs : Nat)
    (events : List WaitEvent) : Option (Except String Unit) :=
  match (waitRun registration timeoutMs events).settled with
  | none => none
  | some Settlement.resolved => some (Except.ok ())
  | some (Settlement.rejected msg) => some (Except.error msg)

/-- Shallow embedding of `registerDefaultSw` (source lines 27 to 52).  The
asynchronous host registration request is the input `regResult`; the
discarded `update()` outcome is `updateResult`; the events delivered during
the activation wait are `waitEvents`.  Returns the final messaging context,
the call outcome (`none` if the activation wait never settles, so the await
suspends forever), and the trace of performed operations.  Any rejection of
the registration request or of the activation wait is caught and wrapped
into `FAILED_DEFAULT_REGISTRATION` with the underlying message attached. -/
def registerDefaultSw {α : Type} (messaging : MessagingService α)
    (timeoutMs : Nat) (regResult : Except String ServiceWorkerRegistration)
    (updateResult : Except String Unit) (waitEvents : List WaitEvent) :
    MessagingService α × Option (Except FirebaseError Unit) × List RegStep :=
  match regResult with
  | Except.error msg =>
      (messaging,
       some (Except.error
         { code := ErrorCode.FAILED_DEFAULT_REGISTRATION,
           browserErrorMessage := msg }),
       [RegStep.hostRegister])
  | Except.ok reg =>
      let messaging := { messaging with swRegistration := some reg }
      let _ := updateResult
      let trace := [RegStep.hostRegister, RegStep.writeSwRegistration reg,
        RegStep.updateRequest, RegStep.activationWait]
      match waitOutcome reg timeoutMs waitEvents with
      | none => (messaging, none, trace)
      | some (Except.ok _) => (messaging, some (Except.ok ()), trace)
      | some (Except.error msg) =>
          (messaging,
           some (Except.error
             { code := ErrorCode.FAILED_DEFAULT_REGISTRATION,
               browserErrorMessage := msg }),
           trace)

/-- A concrete registration with only an installing worker (id 0), used to
instantiate theorems at concrete inputs. -/
def sampleInstallingReg : ServiceWorkerRegistration :=
  { active := none, installing := some { id := 0, state := "installing" },
    waiting := none }

/-! ## Helper lemmas -/

theorem trySettle_timeoutMs (s : WaitState) (o : Settlement) :
    (trySettle s o).timeoutMs = s.timeoutMs := by
  unfold trySettle; split <;> rfl

theorem trySettle_observer (s : WaitState) (o : Settlement) :
    (trySettle s o).observer = s.observer := by
  unfold trySettle; split <;> rfl

theorem trySettle_timerActive (s : WaitState) (o : Settlement) :
    (trySettle s o).timerActive = s.timerActive := by
  unfold trySettle; split <;> rfl

theorem trySettle_settled_of_none (s : WaitState) (o : Settlement)
    (h : s.settled = none) : (trySettle s o).settled = some o := by
  unfold trySettle
  split
  · rename_i o' ho'; rw [h] at ho'; cases ho'
  · simp

theorem trySettle_settled_of_some (s : WaitState) (o o' : Settlement)
    (h : s.settled = some o') : (trySettle s o).settled = some o' := by
  unfold trySettle
  split
  · exact h
  · rename_i hnone; rw [h] at hnone; cases hnone

theorem waitStep_settled (s : WaitState) (e : WaitEvent) (o : Settlement)
    (h : s.settled = some o) : (waitStep s e).settled = some o := by
  cases e with
  | timerFire =>
      simp only [waitStep]
      split
      · exact trySettle_settled_of_some _ _ _ h
      · exact h
  | stateChange tid tst =>
      simp only [waitStep]
      split
      · split
        · exact trySettle_settled_of_some _ _ _ h
        · exact h
      · exact h

theorem waitStep_timeoutMs (s : WaitState) (e : WaitEvent) :
    (waitStep s e).timeoutMs = s.timeoutMs := by
  cases e with
  | timerFire =>
      simp only [waitStep]
      split
      · rw [trySettle_timeoutMs]
      · rfl
  | stateChange tid tst =>
      simp only [waitStep]
      split
      · split
        · rw [trySettle_timeoutMs]
        · rfl
      · rfl

/-- A state with an inactive timer and no observer attached is frozen: no
later event changes it. -/
theorem waitStep_frozen (s : WaitState) (e : WaitEvent)
    (h1 : s.timerActive = false) (h2 : s.observer = none) :
    waitStep s e = s := by
  cases e with
  | timerFire => simp [waitStep, h1]
  | stateChange tid tst => simp [waitStep, h2]

/-- Any property preserved by every event delivery holds after any event
sequence. -/
theorem foldl_waitStep_inv (P : WaitState → Prop)
    (hstep : ∀ s e, P s → P (waitStep s e)) (events : List WaitEvent) :
    ∀ s : WaitState, P s → P (events.foldl waitStep s) := by
  induction events with
  | nil => exact fun s h => h
  | cons e es ih => exact fun s h => ih (waitStep s e) (hstep s e h)

theorem foldl_waitStep_frozen (events : List WaitEvent) (s : WaitState)
    (h1 : s.timerActive = false) (h2 : s.observer = none) :
    events.foldl waitStep s = s := by
  induction events with
  | nil => rfl
  | cons e es ih => rw [List.foldl_cons, waitStep_frozen s e h1 h2]; exact ih

theorem waitRun_timeoutMs (registration : ServiceWorkerRegistration)
    (timeoutMs : Nat) (events : List WaitEvent) :
    (waitRun registration timeoutMs events).timeoutMs = timeoutMs := by
  refine foldl_waitStep_inv (fun s => s.timeoutMs = timeoutMs)
    (fun s e h => (waitStep_timeoutMs s e).trans h) events _ ?_
  unfold waitForRegistrationActive
  cases registration.active with
  | some w => rfl
  | none =>
      cases registration.installing.orElse fun _ => registration.waiting with
      | some sw => rfl
      | none => rfl

/-- A pending event delivery preserves the invariant that the timer is still
pending while the promise is. -/
theorem waitStep_pending_timer (s : WaitState) (e : WaitEvent)
    (h : s.settled = none → s.timerActive = true) :
    (waitStep s e).settled = none → (waitStep s e).timerActive = true := by
  cases e with
  | timerFire =>
      simp only [waitStep]
      split
      · intro hpend
        cases hs : s.settled with
        | none => rw [trySettle_settled_of_none _ _ (by simp [hs])] at hpend; cases hpend
        | some o =>
            rw [trySettle_settled_of_some _ _ o (by simp [hs])] at hpend; cases hpend
      · exact h
  | stateChange tid tst =>
      simp only [waitStep]
      split
      · split
        · intro hpend
          cases hs : s.settled with
          | none =>
              rw [trySettle_settled_of_none _ _ (by simp [hs])] at hpend
              cases hpend
          | some o =>
              rw [trySettle_settled_of_some _ _ o (by simp [hs])] at hpend
              cases hpend
        · exact h
      · exact h

/-- While the promise of a run is pending, the timer is still pending. -/
theorem waitRun_pending_timer (registration : ServiceWorkerRegistration)
    (timeoutMs : Nat) (events : List WaitEvent)
    (h : (waitRun registration timeoutMs events).settled = none) :
    (waitRun registration timeoutMs events).timerActive = true := by
  refine foldl_waitStep_inv
    (fun s => s.settled = none → s.timerActive = true)
    waitStep_pending_timer events _ ?_ h
  unfold waitForRegistrationActive
  cases registration.active with
  | some w => intro hp; cases hp
  | none =>
      cases registration.installing.orElse fun _ => registration.waiting with
      | some sw => intro _; rfl
      | none => intro hp; cases hp

/-- One event delivery preserves the invariant that a resolved promise has
its observer detached and its timer cleared. -/
theorem waitStep_resolved_inv (s : WaitState) (e : WaitEvent)
    (h : s.settled = some Settlement.resolved →
      s.observer = none ∧ s.timerActive = false) :
    (waitStep s e).settled = some Settlement.resolved →
      (waitStep s e).observer = none ∧ (waitStep s e).timerActive = false := by
  cases e with
  | timerFire =>
      simp only [waitStep]
      split
      · rename_i hT
        intro hres
        cases hs : s.settled with
        | none =>
            rw [trySettle_settled_of_none _ _ (by simp [hs])] at hres
            simp at hres
        | some o =>
            rw [trySettle_settled_of_some _ _ o (by simp [hs])] at hres
            injection hres with ho
            subst ho
            exact absurd (h hs).2 (by simp [hT])
      · exact h
  | stateChange tid tst =>
      simp only [waitStep]
      split
      · split
        · intro _
          constructor
          · simp [trySettle_observer]
          · simp [trySettle_timerActive]
        · exact h
      · exact h

/-- A resolved run has its observer detached and its timer cleared. -/
theorem waitRun_resolved_inv (registration : ServiceWorkerRegistration)
    (timeoutMs : Nat) (events : List WaitEvent)
    (h : (waitRun registration timeoutMs events).settled =
      some Settlement.resolved) :
    (waitRun registration timeoutMs events).observer = none ∧
      (waitRun registration timeoutMs events).timerActive = false := by
  refine foldl_waitStep_inv
    (fun s => s.settled = some Settlement.resolved →
      s.observer = none ∧ s.timerActive = false)
    waitStep_resolved_inv events _ ?_ h
  unfold waitForRegistrationActive
  cases registration.active with
  | some w => intro _; exact ⟨rfl, rfl⟩
  | none =>
      cases registration.installing.orElse fun _ => registration.waiting with
      | some sw => intro hp; cases hp
      | none => intro hp; simp at hp

/-- A settlement is stable: delivering further events never changes it. -/
theorem waitRun_settled_append (registration : ServiceWorkerRegistration)
    (timeoutMs : Nat) (events : List WaitEvent) (o : Settlement)
    (more : List WaitEvent)
    (h : (waitRun registration timeoutMs events).settled = some o) :
    (waitRun registration timeoutMs (events ++ more)).settled = some o := by
  unfold waitRun at h ⊢
  rw [List.foldl_append]
  exact foldl_waitStep_inv (fun s => s.settled = some o)
    (fun s e hs => waitStep_settled s e o hs) more _ h

/-- `registerDefaultSw` on a rejected host registration request. -/
theorem registerDefaultSw_regError {α : Type} (messaging : MessagingService α)
    (timeoutMs : Nat) (msg : String) (updateResult : Except String Unit)
    (waitEvents : List WaitEvent) :
    registerDefaultSw messaging timeoutMs (Except.error msg) updateResult
        waitEvents =
      (messaging,
       some (Except.error
         { code := ErrorCode.FAILED_DEFAULT_REGISTRATION,
           browserErrorMessage := msg }),
       [RegStep.hostRegister]) := rfl

/-- `registerDefaultSw` when registration succeeds and the wait resolves. -/
theorem registerDefaultSw_ok {α : Type} (messaging : MessagingService α)
    (timeoutMs : Nat) (reg : ServiceWorkerRegistration)
    (updateResult : Except String Unit) (waitEvents : List WaitEvent)
    (hs : (waitRun reg timeoutMs waitEvents).settled =
      some Settlement.resolved) :
    registerDefaultSw messaging timeoutMs (Except.ok reg) updateResult
        waitEvents =
      ({ messaging with swRegistration := some reg },
       some (Except.ok ()),
       [RegStep.hostRegister, RegStep.writeSwRegistration reg,
        RegStep.updateRequest, RegStep.activationWait]) := by
  simp [registerDefaultSw, waitOutcome, hs]

/-- `registerDefaultSw` when registration succeeds and the wait rejects. -/
theorem registerDefaultSw_waitRejected {α : Type}
    (messaging : MessagingService α) (timeoutMs : Nat)
    (reg : ServiceWorkerRegistration) (updateResult : Except String Unit)
    (waitEvents : List WaitEvent) (msg : String)
    (hs : (waitRun reg timeoutMs waitEvents).settled =
      some (Settlement.rejected msg)) :
    registerDefaultSw messaging timeoutMs (Except.ok reg) updateResult
        waitEvents =
      ({ messaging with swRegistration := some reg },
       some (Except.error
         { code := ErrorCode.FAILED_DEFAULT_REGISTRATION,
           browserErrorMessage := msg }),
       [RegStep.hostRegister, RegStep.writeSwRegistration reg,
        RegStep.updateRequest, RegStep.activationWait]) := by
  simp [registerDefaultSw, waitOutcome, hs]

/-- `registerDefaultSw` when registration succeeds but the wait stays
pending forever. -/
theorem registerDefaultSw_pending {α : Type} (messaging : MessagingService α)
    (timeoutMs : Nat) (reg : ServiceWorkerRegistration)
    (updateResult : Except String Unit) (waitEvents : List WaitEvent)
    (hs : (waitRun reg timeoutMs waitEvents).settled = none) :
    registerDefaultSw messaging timeoutMs (Except.ok reg) updateResult
        waitEvents =
      ({ messaging with swRegistration := some reg },
       none,
       [RegStep.hostRegister, RegStep.writeSwRegistration reg,
        RegStep.updateRequest, RegStep.activationWait]) := by
  simp [registerDefaultSw, waitOutcome, hs]

/-! ## Claim theorems -/

/-- Claim C2: for every registration whose `active` slot is set when
`waitForRegistrationActive` is called, the promise resolves immediately and
the timeout timer is cancelled, and no state-change observer is ever
attached to any worker — even if an installing or waiting worker also
exists: under any sequence of later events the state stays exactly the
resolved state with no observer and no pending timer. -/
theorem waitForRegistrationActive_active_resolves_immediately
    (registration : ServiceWorkerRegistration) (timeoutMs : Nat)
    (events : List WaitEvent) (h : registration.active.isSome = true) :
    waitRun registration timeoutMs events =
      { timeoutMs := timeoutMs, timerActive := false, observer := none,
        settled := some Settlement.resolved } := by
  have hinit : waitForRegistrationActive registration timeoutMs =
      { timeoutMs := timeoutMs, timerActive := false, observer := none,
        settled := some Settlement.resolved } := by
    unfold waitForRegistrationActive
    cases ha : registration.active with
    | some w => rfl
    | none => rw [ha] at h; simp at h
  unfold waitRun
  rw [hinit]
  exact foldl_waitStep_frozen events _ rfl rfl

/-- Witness for C2 at a concrete registration that is active and also has an
installing worker, with a state-change event and a timer fire delivered. -/
theorem waitForRegistrationActive_active_resolves_immediately_witness :
    ((⟨some ⟨1, "activated"⟩, some ⟨2, "installing"⟩, none⟩ :
        ServiceWorkerRegistration).active.isSome = true)
    ∧ waitRun ⟨some ⟨1, "activated"⟩, some ⟨2, "installing"⟩, none⟩ 10000
        [WaitEvent.stateChange 2 "activated", WaitEvent.timerFire] =
      { timeoutMs := 10000, timerActive := false, observer := none,
        settled := some Settlement.resolved } :=
  ⟨rfl, waitForRegistrationActive_active_resolves_immediately _ _ _ rfl⟩

/-- Claim C3: for every registration with none of `active`, `installing`,
`waiting` set, `waitForRegistrationActive` rejects immediately with the
no-incoming-worker error and cancels the timeout timer; under any sequence
of later events (in particular a later timer fire) the state is unchanged,
so no later timeout rejection can fire. -/
theorem waitForRegistrationActive_no_incoming_rejects
    (registration : ServiceWorkerRegistration) (timeoutMs : Nat)
    (events : List WaitEvent) (ha : registration.active = none)
    (hi : registration.installing = none)
    (hw : registration.waiting = none) :
    waitRun registration timeoutMs events =
      { timeoutMs := timeoutMs, timerActive := false, observer := none,
        settled := some (Settlement.rejected noIncomingMessage) } := by
  have hinit : waitForRegistrationActive registration timeoutMs =
      { timeoutMs := timeoutMs, timerActive := false, observer := none,
        settled := some (Settlement.rejected noIncomingMessage) } := by
    unfold waitForRegistrationActive
    rw [ha, hi, hw]
    rfl
  unfold waitRun
  rw [hinit]
  exact foldl_waitStep_frozen events _ rfl rfl

/-- Witness for C3 at the empty registration with a later timer fire. -/
theorem waitForRegistrationActive_no_incoming_rejects_witness :
    waitRun ⟨none, none, none⟩ 10000 [WaitEvent.timerFire] =
      { timeoutMs := 10000, timerActive := false, observer := none,
        settled := some (Settlement.rejected noIncomingMessage) } :=
  waitForRegistrationActive_no_incoming_rejects _ _ _ rfl rfl rfl

/-- Claim C4: for a registration with an incoming worker and no active
worker, the executor attaches the observer to that worker and stays pending;
a state-change event on it whose state is exactly `"activated"` detaches the
observer, cancels the timer and resolves the promise, while a state-change
event with any other state value leaves the state unchanged (promise pending,
observer still attached). -/
theorem waitForRegistrationActive_activated_resolves
    (registration : ServiceWorkerRegistration) (timeoutMs : Nat)
    (sw : ServiceWorker) (ha : registration.active = none)
    (hinc : (registration.installing.orElse fun _ => registration.waiting) =
      some sw) :
    waitForRegistrationActive registration timeoutMs =
      { timeoutMs := timeoutMs, timerActive := true, observer := some sw.id,
        settled := none }
    ∧ waitStep
        { timeoutMs := timeoutMs, timerActive := true,
          observer := some sw.id, settled := none }
        (WaitEvent.stateChange sw.id "activated") =
      { timeoutMs := timeoutMs, timerActive := false, observer := none,
        settled := some Settlement.resolved }
    ∧ ∀ st : String, st ≠ "activated" →
        waitStep
          { timeoutMs := timeoutMs, timerActive := true,
            observer := some sw.id, settled := none }
          (WaitEvent.stateChange sw.id st) =
        { timeoutMs := timeoutMs, timerActive := true,
          observer := some sw.id, settled := none } := by
  refine ⟨?_, ?_, ?_⟩
  · unfold waitForRegistrationActive
    rw [ha, hinc]
  · simp [waitStep, trySettle]
  · intro st hst
    simp [waitStep, hst]

/-- Witness for C4 at a registration with only an installing worker: the
observer attaches, an `"activated"` event resolves, an `"installing"` event
does not. -/
theorem waitForRegistrationActive_activated_resolves_witness :
    waitForRegistrationActive sampleInstallingReg 10000 =
      { timeoutMs := 10000, timerActive := true, observer := some 0,
        settled := none }
    ∧ waitStep
        { timeoutMs := 10000, timerActive := true, observer := some 0,
          settled := none }
        (WaitEvent.stateChange 0 "activated") =
      { timeoutMs := 10000, timerActive := false, observer := none,
        settled := some Settlement.resolved }
    ∧ waitStep
        { timeoutMs := 10000, timerActive := true, observer := some 0,
          settled := none }
        (WaitEvent.stateChange 0 "installing") =
      { timeoutMs := 10000, timerActive := true, observer := some 0,
        settled := none } :=
  ⟨(waitForRegistrationActive_activated_resolves sampleInstallingReg 10000
      ⟨0, "installing"⟩ rfl rfl).1,
   (waitForRegistrationActive_activated_resolves sampleInstallingReg 10000
      ⟨0, "installing"⟩ rfl rfl).2.1,
   (waitForRegistrationActive_activated_resolves sampleInstallingReg 10000
      ⟨0, "installing"⟩ rfl rfl).2.2 "installing" (by decide)⟩

/-- Claim C6: for a registration with both an installing and a waiting worker
and no active worker, only the installing worker is observed
(`installing || waiting`); a state-change event to `"activated"` on the
waiting worker alone leaves the state unchanged and the promise pending. -/
theorem waitForRegistrationActive_installing_precedence
    (registration : ServiceWorkerRegistration) (timeoutMs : Nat)
    (swI swW : ServiceWorker) (ha : registration.active = none)
    (hi : registration.installing = some swI)
    (hw : registration.waiting = some swW) (hne : swW.id ≠ swI.id) :
    (waitForRegistrationActive registration timeoutMs).observer =
      some swI.id
    ∧ waitStep (waitForRegistrationActive registration timeoutMs)
        (WaitEvent.stateChange swW.id "activated") =
      waitForRegistrationActive registration timeoutMs
    ∧ (waitStep (waitForRegistrationActive registration timeoutMs)
        (WaitEvent.stateChange swW.id "activated")).settled = none := by
  have hne2 : swI.id ≠ swW.id := fun hh => hne hh.symm
  have hinit : waitForRegistrationActive registration timeoutMs =
      { timeoutMs := timeoutMs, timerActive := true,
        observer := some swI.id, settled := none } := by
    unfold waitForRegistrationActive
    rw [ha, hi]
    rfl
  refine ⟨by rw [hinit], ?_, ?_⟩
  · rw [hinit]
    simp [waitStep, hne2]
  · rw [hinit]
    simp [waitStep, hne2]

/-- Witness for C6: installing worker id 1, waiting worker id 2; an
`"activated"` event on the waiting worker does not settle the promise. -/
theorem waitForRegistrationActive_installing_precedence_witness :
    (waitForRegistrationActive
      ⟨none, some ⟨1, "installing"⟩, some ⟨2, "installed"⟩⟩ 10000).observer =
      some 1
    ∧ (waitStep (waitForRegistrationActive
        ⟨none, some ⟨1, "installing"⟩, some ⟨2, "installed"⟩⟩ 10000)
        (WaitEvent.stateChange 2 "activated")).settled = none :=
  ⟨(waitForRegistrationActive_installing_precedence _ 10000
      ⟨1, "installing"⟩ ⟨2, "installed"⟩ rfl rfl rfl (by decide)).1,
   (waitForRegistrationActive_installing_precedence _ 10000
      ⟨1, "installing"⟩ ⟨2, "installed"⟩ rfl rfl rfl (by decide)).2.2⟩

/-- Claim C5: for every run in which the promise is still pending, the timer
is still pending too, and its firing rejects the promise with the timeout
error, whose message contains the configured timeout duration in
milliseconds. -/
theorem waitForRegistrationActive_timeout_rejects_with_duration
    (registration : ServiceWorkerRegistration) (timeoutMs : Nat)
    (events : List WaitEvent)
    (h : (waitRun registration timeoutMs events).settled = none) :
    (waitRun registration timeoutMs
        (events ++ [WaitEvent.timerFire])).settled =
      some (Settlement.rejected (timeoutMessage timeoutMs))
    ∧ ∃ pre post, timeoutMessage timeoutMs =
        pre ++ toString timeoutMs ++ post := by
  constructor
  · have happ : waitRun registration timeoutMs
        (events ++ [WaitEvent.timerFire]) =
        waitStep (waitRun registration timeoutMs events)
          WaitEvent.timerFire := by
      unfold waitRun
      rw [List.foldl_append]
      rfl
    rw [happ]
    have ht := waitRun_pending_timer registration timeoutMs events h
    have htm := waitRun_timeoutMs registration timeoutMs events
    simp only [waitStep, ht, if_true]
    rw [trySettle_settled_of_none _ _ (by simp [h]), htm]
  · exact ⟨"Service worker not registered after ", " ms", rfl⟩

/-- Witness for C5: a pending run over an installing worker, then the timer
fires. -/
theorem waitForRegistrationActive_timeout_rejects_with_duration_witness :
    (waitRun sampleInstallingReg 10000
        ([] ++ [WaitEvent.timerFire])).settled =
      some (Settlement.rejected (timeoutMessage 10000))
    ∧ ∃ pre post, timeoutMessage 10000 = pre ++ toString 10000 ++ post :=
  waitForRegistrationActive_timeout_rejects_with_duration
    sampleInstallingReg 10000 [] rfl

/-- Counterexample to C7 as stated: with an installing worker observed,
after the timer fires the promise is settled (rejected with the timeout
error) but the state-change observer is still attached to worker 0 — the
timeout callback rejects without detaching `onstatechange`. -/
theorem waitForRegistrationActive_timeout_observer_counterexample :
    (waitRun sampleInstallingReg 10000 [WaitEvent.timerFire]).settled =
      some (Settlement.rejected (timeoutMessage 10000))
    ∧ (waitRun sampleInstallingReg 10000 [WaitEvent.timerFire]).observer =
      some 0 :=
  ⟨rfl, rfl⟩

/-- Claim C7 (amended): in every run at most one settlement takes effect and
it is stable — once settled, later timer fires or state-change events never
change it, so resolve and reject attempts after settlement are no-ops — and
on every resolving path the observer is detached and the timer cancelled;
on the timeout path, however, the observer stays attached at settlement and
is removed only by a later `"activated"` state-change event on the observed
worker. -/
theorem waitForRegistrationActive_single_settlement
    (registration : ServiceWorkerRegistration) (timeoutMs : Nat)
    (events : List WaitEvent) :
    (∀ (o : Settlement) (more : List WaitEvent),
        (waitRun registration timeoutMs events).settled = some o →
        (waitRun registration timeoutMs (events ++ more)).settled = some o)
    ∧ ((waitRun registration timeoutMs events).settled =
          some Settlement.resolved →
        (waitRun registration timeoutMs events).observer = none ∧
        (waitRun registration timeoutMs events).timerActive = false)
    ∧ (∀ tid : Nat,
        (waitRun registration timeoutMs events).observer = some tid →
        (waitRun registration timeoutMs
          (events ++ [WaitEvent.stateChange tid "activated"])).observer =
          none) := by
  refine ⟨fun o more h =>
      waitRun_settled_append registration timeoutMs events o more h,
    waitRun_resolved_inv registration timeoutMs events, ?_⟩
  intro tid hobs
  have happ : waitRun registration timeoutMs
      (events ++ [WaitEvent.stateChange tid "activated"]) =
      waitStep (waitRun registration timeoutMs events)
        (WaitEvent.stateChange tid "activated") := by
    unfold waitRun
    rw [List.foldl_append]
    rfl
  rw [happ]
  simp [waitStep, hobs, trySettle_observer]

/-- Witness for the amended C7: after the installing worker activates, the
settlement is resolved, stays resolved after a later timer fire, and the
observer is detached. -/
theorem waitForRegistrationActive_single_settlement_witness :
    (waitRun sampleInstallingReg 10000
        ([WaitEvent.stateChange 0 "activated"] ++
          [WaitEvent.timerFire])).settled = some Settlement.resolved
    ∧ (waitRun sampleInstallingReg 10000
        [WaitEvent.stateChange 0 "activated"]).observer = none :=
  ⟨(waitForRegistrationActive_single_settlement sampleInstallingReg 10000
      [WaitEvent.stateChange 0 "activated"]).1 Settlement.resolved
      [WaitEvent.timerFire] rfl,
   ((waitForRegistrationActive_single_settlement sampleInstallingReg 10000
      [WaitEvent.stateChange 0 "activated"]).2.1 rfl).1⟩

/-- Every error surfaced by `registerDefaultSw` carries the code
`FAILED_DEFAULT_REGISTRATION`. -/
theorem registerDefaultSw_error_code {α : Type}
    (messaging : MessagingService α) (timeoutMs : Nat)
    (regResult : Except String ServiceWorkerRegistration)
    (updateResult : Except String Unit) (waitEvents : List WaitEvent)
    (e : FirebaseError)
    (he : (registerDefaultSw messaging timeoutMs regResult updateResult
      waitEvents).2.1 = some (Except.error e)) :
    e.code = ErrorCode.FAILED_DEFAULT_REGISTRATION := by
  cases regResult with
  | error m =>
      rw [registerDefaultSw_regError] at he
      simp at he
      subst he
      rfl
  | ok reg =>
      cases hs : (waitRun reg timeoutMs waitEvents).settled with
      | none =>
          rw [registerDefaultSw_pending _ _ _ _ _ hs] at he
          simp at he
      | some o =>
          cases o with
          | resolved =>
              rw [registerDefaultSw_ok _ _ _ _ _ hs] at he
              simp at he
          | rejected msg =>
              rw [registerDefaultSw_waitRejected _ _ _ _ _ _ hs] at he
              simp at he
              subst he
              rfl

/-- Claim C1: every failure of `registerDefaultSw` surfaces as the single
error code `FAILED_DEFAULT_REGISTRATION` carrying the underlying message —
both when the host registration request rejects and when the activation
wait rejects (timeout or no incoming worker) — no other error kind is ever
produced, and the trace contains exactly one host registration request, so
no retry is attempted. -/
theorem registerDefaultSw_single_error_kind {α : Type}
    (messaging : MessagingService α) (timeoutMs : Nat)
    (regResult : Except String ServiceWorkerRegistration)
    (updateResult : Except String Unit) (waitEvents : List WaitEvent) :
    (∀ e : FirebaseError,
        (registerDefaultSw messaging timeoutMs regResult updateResult
          waitEvents).2.1 = some (Except.error e) →
        e.code = ErrorCode.FAILED_DEFAULT_REGISTRATION)
    ∧ (∀ msg : String, regResult = Except.error msg →
        (registerDefaultSw messaging timeoutMs regResult updateResult
          waitEvents).2.1 =
          some (Except.error
            { code := ErrorCode.FAILED_DEFAULT_REGISTRATION,
              browserErrorMessage := msg }))
    ∧ (∀ (reg : ServiceWorkerRegistration) (msg : String),
        regResult = Except.ok reg →
        (waitRun reg timeoutMs waitEvents).settled =
          some (Settlement.rejected msg) →
        (registerDefaultSw messaging timeoutMs regResult updateResult
          waitEvents).2.1 =
          some (Except.error
            { code := ErrorCode.FAILED_DEFAULT_REGISTRATION,
              browserErrorMessage := msg }))
    ∧ (registerDefaultSw messaging timeoutMs regResult updateResult
        waitEvents).2.2.filter isHostRegister = [RegStep.hostRegister] := by
  refine ⟨fun e he => registerDefaultSw_error_code messaging timeoutMs
      regResult updateResult waitEvents e he, ?_, ?_, ?_⟩
  · intro msg hmsg
    subst hmsg
    rw [registerDefaultSw_regError]
  · intro reg msg hok hs
    subst hok
    rw [registerDefaultSw_waitRejected _ _ _ _ _ _ hs]
  · cases regResult with
    | error m =>
        rw [registerDefaultSw_regError]
        rfl
    | ok reg =>
        cases hs : (waitRun reg timeoutMs waitEvents).settled with
        | none =>
            rw [registerDefaultSw_pending _ _ _ _ _ hs]
            rfl
        | some o =>
            cases o with
            | resolved =>
                rw [registerDefaultSw_ok _ _ _ _ _ hs]
                rfl
            | rejected msg =>
                rw [registerDefaultSw_waitRejected _ _ _ _ _ _ hs]
                rfl

/-- Witness for C1: a rejected host registration request surfaces as
`FAILED_DEFAULT_REGISTRATION` with the underlying message attached. -/
theorem registerDefaultSw_single_error_kind_witness :
    (registerDefaultSw (⟨none, ()⟩ : MessagingService Unit) 10000
        (Except.error "net down") (Except.ok ()) []).2.1 =
      some (Except.error
        { code := ErrorCode.FAILED_DEFAULT_REGISTRATION,
          browserErrorMessage := "net down" }) :=
  (registerDefaultSw_single_error_kind (⟨none, ()⟩ : MessagingService Unit)
    10000 (Except.error "net down") (Except.ok ()) []).2.1 "net down" rfl

/-- Claim C8: the outcome of the `update()` request is discarded entirely:
the whole result of `registerDefaultSw` is identical for any two update
outcomes, and when the host registration succeeds and the activation wait
resolves, the call succeeds — even if the update request rejected. -/
theorem registerDefaultSw_update_outcome_discarded {α : Type}
    (messaging : MessagingService α) (timeoutMs : Nat)
    (regResult : Except String ServiceWorkerRegistration)
    (u1 u2 : Except String Unit) (waitEvents : List WaitEvent) :
    registerDefaultSw messaging timeoutMs regResult u1 waitEvents =
      registerDefaultSw messaging timeoutMs regResult u2 waitEvents
    ∧ (∀ reg : ServiceWorkerRegistration, regResult = Except.ok reg →
        (waitRun reg timeoutMs waitEvents).settled =
          some Settlement.resolved →
        (registerDefaultSw messaging timeoutMs regResult u1
          waitEvents).2.1 = some (Except.ok ())) := by
  constructor
  · cases regResult <;> rfl
  · intro reg hok hs
    subst hok
    rw [registerDefaultSw_ok _ _ _ _ _ hs]

/-- Witness for C8: with an already-active registration the call succeeds
although the update request rejected. -/
theorem registerDefaultSw_update_outcome_discarded_witness :
    (registerDefaultSw (⟨none, ()⟩ : MessagingService Unit) 10000
        (Except.ok ⟨some ⟨3, "activated"⟩, none, none⟩)
        (Except.error "update failed") []).2.1 = some (Except.ok ()) :=
  (registerDefaultSw_update_outcome_discarded
    (⟨none, ()⟩ : MessagingService Unit) 10000
    (Except.ok ⟨some ⟨3, "activated"⟩, none, none⟩)
    (Except.error "update failed") (Except.ok ()) []).2 _ rfl rfl

/-- Claim C9: `registerDefaultSw` writes exactly the `swRegistration` field
of the messaging context — set to the handle returned by the host, the
write appearing in the trace before the update request and the activation
wait — and reads no context field: the remaining fields are unchanged, the
context is untouched when registration rejects, and the outcome and trace
are identical for every initial context. -/
theorem registerDefaultSw_frame {α : Type} (messaging : MessagingService α)
    (timeoutMs : Nat) (regResult : Except String ServiceWorkerRegistration)
    (updateResult : Except String Unit) (waitEvents : List WaitEvent) :
    (registerDefaultSw messaging timeoutMs regResult updateResult
        waitEvents).1.rest = messaging.rest
    ∧ (∀ reg : ServiceWorkerRegistration, regResult = Except.ok reg →
        (registerDefaultSw messaging timeoutMs regResult updateResult
          waitEvents).1.swRegistration = some reg ∧
        (registerDefaultSw messaging timeoutMs regResult updateResult
          waitEvents).2.2 =
          [RegStep.hostRegister, RegStep.writeSwRegistration reg,
           RegStep.updateRequest, RegStep.activationWait])
    ∧ (∀ msg : String, regResult = Except.error msg →
        (registerDefaultSw messaging timeoutMs regResult updateResult
          waitEvents).1 = messaging)
    ∧ (∀ messaging2 : MessagingService α,
        (registerDefaultSw messaging2 timeoutMs regResult updateResult
          waitEvents).2 =
        (registerDefaultSw messaging timeoutMs regResult updateResult
          waitEvents).2) := by
  have hcases : ∀ (m2 : MessagingService α),
      (registerDefaultSw m2 timeoutMs regResult updateResult waitEvents).2 =
      (registerDefaultSw messaging timeoutMs regResult updateResult
        waitEvents).2 := by
    intro m2
    cases regResult with
    | error m => rfl
    | ok reg =>
        cases hs : (waitRun reg timeoutMs waitEvents).settled with
        | none =>
            rw [registerDefaultSw_pending _ _ _ _ _ hs,
              registerDefaultSw_pending _ _ _ _ _ hs]
        | some o =>
            cases o with
            | resolved =>
                rw [registerDefaultSw_ok _ _ _ _ _ hs,
                  registerDefaultSw_ok _ _ _ _ _ hs]
            | rejected msg =>
                rw [registerDefaultSw_waitRejected _ _ _ _ _ _ hs,
                  registerDefaultSw_waitRejected _ _ _ _ _ _ hs]
  refine ⟨?_, ?_, ?_, hcases⟩
  · cases regResult with
    | error m => rfl
    | ok reg =>
        cases hs : (waitRun reg timeoutMs waitEvents).settled with
        | none => rw [registerDefaultSw_pending _ _ _ _ _ hs]
        | some o =>
            cases o with
            | resolved => rw [registerDefaultSw_ok _ _ _ _ _ hs]
            | rejected msg =>
                rw [registerDefaultSw_waitRejected _ _ _ _ _ _ hs]
  · intro reg hok
    subst hok
    cases hs : (waitRun reg timeoutMs waitEvents).settled with
    | none => rw [registerDefaultSw_pending _ _ _ _ _ hs]; exact ⟨rfl, rfl⟩
    | some o =>
        cases o with
        | resolved =>
            rw [registerDefaultSw_ok _ _ _ _ _ hs]; exact ⟨rfl, rfl⟩
        | rejected msg =>
            rw [registerDefaultSw_waitRejected _ _ _ _ _ _ hs]
            exact ⟨rfl, rfl⟩
  · intro msg hmsg
    subst hmsg
    rfl

/-- Witness for C9: with a successful registration of an already-active
handle, `swRegistration` holds the returned handle, the other context field
is unchanged, and the trace shows the write before update and wait. -/
theorem registerDefaultSw_frame_witness :
    (registerDefaultSw (⟨none, 7⟩ : MessagingService Nat) 10000
        (Except.ok ⟨some ⟨4, "activated"⟩, none, none⟩) (Except.ok ())
        []).1.swRegistration = some ⟨some ⟨4, "activated"⟩, none, none⟩
    ∧ (registerDefaultSw (⟨none, 7⟩ : MessagingService Nat) 10000
        (Except.ok ⟨some ⟨4, "activated"⟩, none, none⟩) (Except.ok ())
        []).1.rest = (⟨none, 7⟩ : MessagingService Nat).rest
    ∧ (registerDefaultSw (⟨none, 7⟩ : MessagingService Nat) 10000
        (Except.ok ⟨some ⟨4, "activated"⟩, none, none⟩) (Except.ok ())
        []).2.2 =
      [RegStep.hostRegister,
       RegStep.writeSwRegistration ⟨some ⟨4, "activated"⟩, none, none⟩,
       RegStep.updateRequest, RegStep.activationWait] :=
  ⟨((registerDefaultSw_frame (⟨none, 7⟩ : MessagingService Nat) 10000
      (Except.ok ⟨some ⟨4, "activated"⟩, none, none⟩) (Except.ok ())
      []).2.1 _ rfl).1,
   (registerDefaultSw_frame (⟨none, 7⟩ : MessagingService Nat) 10000
      (Except.ok ⟨some ⟨4, "activated"⟩, none, none⟩) (Except.ok ()) []).1,
   ((registerDefaultSw_frame (⟨none, 7⟩ : MessagingService Nat) 10000
      (Except.ok ⟨some ⟨4, "activated"⟩, none, none⟩) (Except.ok ())
      []).2.1 _ rfl).2⟩

/-- Claim C10: when the host registration succeeds but the activation wait
rejects, `registerDefaultSw` fails with `FAILED_DEFAULT_REGISTRATION` while
`swRegistration` still holds the newly stored handle — the context write is
not rolled back on error. -/
theorem registerDefaultSw_no_rollback_on_wait_failure {α : Type}
    (messaging : MessagingService α) (timeoutMs : Nat)
    (updateResult : Except String Unit) (waitEvents : List WaitEvent)
    (reg : ServiceWorkerRegistration) (msg : String)
    (hs : (waitRun reg timeoutMs waitEvents).settled =
      some (Settlement.rejected msg)) :
    (registerDefaultSw messaging timeoutMs (Except.ok reg) updateResult
        waitEvents).1.swRegistration = some reg
    ∧ (registerDefaultSw messaging timeoutMs (Except.ok reg) updateResult
        waitEvents).2.1 =
      some (Except.error
        { code := ErrorCode.FAILED_DEFAULT_REGISTRATION,
          browserErrorMessage := msg }) := by
  rw [registerDefaultSw_waitRejected _ _ _ _ _ _ hs]
  exact ⟨rfl, rfl⟩

/-- Witness for C10: an empty registration makes the wait reject with the
no-incoming-worker error; the handle stays stored and the call fails with
the wrapped message. -/
theorem registerDefaultSw_no_rollback_on_wait_failure_witness :
    (registerDefaultSw (⟨none, ()⟩ : MessagingService Unit) 10000
        (Except.ok ⟨none, none, none⟩) (Except.ok ())
        []).1.swRegistration = some ⟨none, none, none⟩
    ∧ (registerDefaultSw (⟨none, ()⟩ : MessagingService Unit) 10000
        (Except.ok ⟨none, none, none⟩) (Except.ok ()) []).2.1 =
      some (Except.error
        { code := ErrorCode.FAILED_DEFAULT_REGISTRATION,
          browserErrorMessage := noIncomingMessage }) :=
  registerDefaultSw_no_rollback_on_wait_failure
    (⟨none, ()⟩ : MessagingService Unit) 10000 (Except.ok ()) []
    ⟨none, none, none⟩ noIncomingMessage rfl
